import Mathlib

/-!
Verification of the patient-intake dialogue orchestration core.

This file embeds the node/state model, the specialty registry, the per-node
handlers and the transition callbacks of the intake agent (the Python sources
under `src/agent/`) as executable Lean definitions, and proves or refutes the
frozen behavioural claims about them.

Modelling conventions:
* Python JSON-ish values are `JValue`; Python dicts are insertion-ordered
  association lists (`List (String × JValue)`), with `dictGet` embedding
  `dict.get(key, default)` and `dictSet` embedding `d[key] = v`.
* Fallible Python code (KeyError, AttributeError, TypeError) is embedded as
  `Except String`; the error string names the Python exception.
* `datetime.now()` is an ambient clock: functions that may read it take an
  explicit `now : String` argument (its ISO-format rendering).
* Handler functions attached to node configurations are referenced by their
  Python function name (a `String` tag) inside the static node data; the
  functions themselves are embedded separately.
-/

namespace PatientIntake

/-- A JSON-like Python value as passed around by the tool-call layer. -/
inductive JValue where
  | str (s : String)
  | bool (b : Bool)
  | num (n : Int)
  | list (xs : List JValue)
  | obj (fields : List (String × JValue))
  | null

/-- A Python dict with string keys, as an insertion-ordered association list. -/
abbrev Obj := List (String × JValue)

/-- Raw tool-call arguments (`FlowArgs`). -/
abbrev Args := List (String × JValue)

/-- Python `d.get(k, default)`: the stored value if the key is present
(whatever it is, including `None`), otherwise the default. -/
def dictGet (d : Obj) (k : String) (default : JValue) : JValue :=
  (d.lookup k).getD default

/-- Python `d[k]`: raises `KeyError` when the key is absent. -/
def dictItem (d : Obj) (k : String) : Except String JValue :=
  match d.lookup k with
  | some v => Except.ok v
  | none => Except.error ("KeyError: " ++ k)

/-- Python `d[k] = v`: overwrites in place when the key is present (keeping
its position in insertion order), otherwise appends. -/
def dictSet (d : Obj) (k : String) (v : JValue) : Obj :=
  if d.any (fun p => p.fst == k) then
    d.map (fun p => if p.fst == k then (k, v) else p)
  else
    d ++ [(k, v)]

/-- Python `s.lower()` on a string: per-character lowercasing (ASCII-faithful;
no Python string in this program is non-ASCII). Implemented over the
character list so that it evaluates on literals. -/
def pyLower (s : String) : String := ⟨s.data.map Char.toLower⟩

/-- Substring occurrence over character lists: the needle occurs at some
position of the haystack (the empty needle always occurs). -/
def containsSub : List Char → List Char → Bool
  | _, [] => true
  | [], _ :: _ => false
  | h :: t, c :: cs => List.isPrefixOf (c :: cs) (h :: t) || containsSub t (c :: cs)

/-- Python `needle in hay` for strings: substring occurrence. -/
def strContains (hay needle : String) : Bool :=
  containsSub hay.data needle.data

/-- Python truthiness of a value (`if result[...]:`). -/
def jTruthy : JValue → Bool
  | .str s => !s.isEmpty
  | .bool b => b
  | .num n => n != 0
  | .list xs => !xs.isEmpty
  | .obj fields => !fields.isEmpty
  | .null => false

/-- Python `v.lower()`: succeeds only on strings; any other value raises
`AttributeError`. -/
def jLower : JValue → Except String String
  | .str s => Except.ok (pyLower s)
  | _ => Except.error "AttributeError: lower"

/-- One chat message of a node configuration (`role_messages` / `task_messages`). -/
structure Message where
  role : String
  content : String

/-- The static data of one function entry in a node configuration's
`functions` list. The Python `handler` and `transition_callback` fields hold
function objects; here they are recorded by the Python function's name, and
the functions themselves are embedded separately. `params` lists the property
names of the JSON-schema `parameters.properties` object (the per-property
type/description strings are static documentation and are elided). -/
structure FunctionDef where
  name : String
  description : String
  handlerTag : Option String
  params : List String
  required : List String
  transitionCallbackTag : Option String
  transitionTo : Option String

/-- A node configuration dict as built by the `create_*_node` factories. -/
structure NodeConfig where
  roleMessages : List Message
  taskMessages : List Message
  functions : List FunctionDef
  preActions : List Obj
  postActions : List Obj

/-- The per-session flow manager: the mutable session state dict plus the
history of `set_node` calls (name and configuration, in call order); the
currently active node is the last one installed. -/
structure FlowManager where
  state : Obj
  installedNodes : List (String × NodeConfig)

/-- `flow_manager.set_node(name, config)`: installs the next node. -/
def set_node (fm : FlowManager) (name : String) (config : NodeConfig) : FlowManager :=
  ⟨fm.state, fm.installedNodes ++ [(name, config)]⟩

/-- `flow_manager.state[key] = value`. -/
def stateSet (fm : FlowManager) (k : String) (v : JValue) : FlowManager :=
  ⟨dictSet fm.state k v, fm.installedNodes⟩

/-! ## General nodes: end, entry (consent), chief complaint -/

/-- `create_end_call_node` (end.py): terminal node uttering `message`, with
no functions and an `end_conversation` post-action. -/
def create_end_call_node (message : String) : NodeConfig :=
  { roleMessages := []
    taskMessages := [⟨"system", "Say: \x27" ++ message ++ "\x27"⟩]
    functions := []
    preActions := []
    postActions := [[("type", JValue.str "end_conversation")]] }

/-- `create_entry_node` (entry.py): greeting plus consent collection. -/
def create_entry_node : NodeConfig :=
  { roleMessages := [⟨"system",
      "You are Alice, an agent for the Surrey Medical Clinic. Your job is to collect important information from the user before their doctor visit. You\x27re talking to Ricky Sangha. You should address the user by their first name and be polite and professional. You\x27re not a medical professional, so you shouldn\x27t provide any advice. Keep your responses short. Your job is to collect information to give to a doctor. Don\x27t make assumptions about what values to plug into functions. Ask for clarification if a user response is ambiguous.Maintain a professional, friendly, and empathetic tone. Speak naturally and clearly as this is a voice conversation."⟩]
    taskMessages := [⟨"system",
      "Start by introducing yourself as an automated assistant from the medical office. Explain that you\x27re calling to gather some information before their upcoming appointment. Ask for their consent to collect health information."⟩]
    functions := [⟨"process_consent", "Process patient consent", some "verify_consent",
      ["consent"], ["consent"], some "handle_consent_transition", none⟩]
    preActions := []
    postActions := [] }

/-- `verify_consent` (entry.py): the consent handler. `args.get("consent", "")`
is a bool (taken as-is), a string (consent iff it lowercases to "true"), or
anything else (no consent). The `now` argument is the ambient clock, unread. -/
def verify_consent (_now : String) (args : Args) : Obj :=
  let consent_given : Bool :=
    match dictGet args "consent" (.str "") with
    | .bool b => b
    | .str s => pyLower s == "true"
    | _ => false
  [("status", .str "success"), ("consent_given", .bool consent_given)]

/-- The decline message of the consent-refused branch (entry.py). -/
def consentDeclineMessage : String :=
  "I understand. I\x27ll have a staff member contact you directly. Thank you for your time."

/-- `create_chief_complaint_node` (chief_complaint.py). -/
def create_chief_complaint_node : NodeConfig :=
  { roleMessages := []
    taskMessages := [⟨"system",
      "Ask: \x27Could you please tell me the main reason for your appointment?\x27 After their response, ask about duration: \x27How long have you been experiencing these symptoms?\x27"⟩]
    functions := [⟨"collect_chief_complaint", "Collect chief complaint information",
      some "collect_chief_complaint", ["complaint", "duration"], ["complaint", "duration"],
      some "handle_complaint_transition", none⟩]
    preActions := []
    postActions := [] }

/-- `handle_consent_transition` (entry.py): on a truthy `consent_given`,
record the flag and install `chief_complaint`; otherwise install the terminal
`end_call` node with the decline message. `result["consent_given"]` raises
`KeyError` when absent. -/
def handle_consent_transition (_args : Args) (result : Obj) (fm : FlowManager) :
    Except String FlowManager := do
  let consent ← dictItem result "consent_given"
  if jTruthy consent then
    Except.ok (set_node (stateSet fm "consent_given" (.bool true))
      "chief_complaint" create_chief_complaint_node)
  else
    Except.ok (set_node fm "end_call" (create_end_call_node consentDeclineMessage))

/-- `collect_chief_complaint` (chief_complaint.py): pass-through with empty
defaults. -/
def collect_chief_complaint (_now : String) (args : Args) : Obj :=
  [("status", .str "success"),
   ("complaint", dictGet args "complaint" (.str "")),
   ("duration", dictGet args "duration" (.str ""))]

/-! ## General nodes: medical history, wrap-up, emergency -/

/-- `create_medical_history_node` (medical_history.py). -/
def create_medical_history_node : NodeConfig :=
  { roleMessages := []
    taskMessages := [⟨"system",
      "Now I\x27d like to ask about your general medical history. Ask about:\n1. Any existing medical conditions\n2. Current medications\n3. Any allergies\n4. Past surgeries\nAsk these questions one at a time, naturally."⟩]
    functions := [⟨"collect_medical_history", "Collect patient\x27s medical history",
      some "collect_medical_history",
      ["conditions", "medications", "allergies", "surgeries"],
      ["conditions", "medications", "allergies"],
      some "handle_medical_history_transition", none⟩]
    preActions := []
    postActions := [] }

/-- `collect_medical_history` (medical_history.py): pass-through with empty
list defaults. -/
def collect_medical_history (_now : String) (args : Args) : Obj :=
  [("status", .str "success"),
   ("conditions", dictGet args "conditions" (.list [])),
   ("medications", dictGet args "medications" (.list [])),
   ("allergies", dictGet args "allergies" (.list [])),
   ("surgeries", dictGet args "surgeries" (.list []))]

/-- `create_wrap_up_node` (wrap_up.py). -/
def create_wrap_up_node : NodeConfig :=
  { roleMessages := []
    taskMessages := [⟨"system",
      "Thank the patient for their time and summarize the key information collected. Let them know that this information will be reviewed by their healthcare provider before their appointment. Ask if they have any questions before ending the call."⟩]
    functions := [⟨"finish_conversation", "End the conversation", none, [], [],
      some "handle_wrap_up_transition", none⟩]
    preActions := []
    postActions := [] }

/-- `handle_medical_history_transition` (medical_history.py): record the four
history fields under the `medical_history` topic key, then install `wrap_up`
unconditionally. -/
def handle_medical_history_transition (_args : Args) (result : Obj) (fm : FlowManager) :
    Except String FlowManager := do
  let conditions ← dictItem result "conditions"
  let medications ← dictItem result "medications"
  let allergies ← dictItem result "allergies"
  let surgeries ← dictItem result "surgeries"
  let fm := stateSet fm "medical_history" (.obj
    [("conditions", conditions), ("medications", medications),
     ("allergies", allergies), ("surgeries", surgeries)])
  Except.ok (set_node fm "wrap_up" create_wrap_up_node)

/-- `handle_wrap_up_transition` (wrap_up.py): install the terminal node
unconditionally. -/
def handle_wrap_up_transition (_args : Args) (_result : Obj) (fm : FlowManager) :
    Except String FlowManager :=
  Except.ok (set_node fm "end_call" (create_end_call_node "Thank you for your time. Goodbye!"))

/-- `create_emergency_node` (emergency.py): escalation node whose
`alert_staff` pre-action carries the emergency reason verbatim. The Python
parameter is annotated `str` but is handed `result["emergency_reason"]`
unchecked, so it is modelled as a `JValue`. -/
def create_emergency_node (emergency_reason : JValue) : NodeConfig :=
  { roleMessages := []
    taskMessages := [⟨"system",
      "Based on what you\x27ve told me, I need to transfer you to our medical staff immediately. Please stay on the line while I connect you. If you\x27re experiencing severe symptoms, please consider calling emergency services or going to the nearest emergency room."⟩]
    functions := [⟨"handle_emergency", "Handle emergency routing", some "handle_emergency",
      ["emergency_reason"], [], some "handle_emergency_transition", none⟩]
    preActions := [[("type", JValue.str "alert_staff"), ("reason", emergency_reason)]]
    postActions := [] }

namespace EmergencyNode

/-- `handle_emergency` (emergency.py, the module-level definition that shadows
the imported shared handler and is the one bound into the emergency node):
pure pass-through with the placeholder default reason. -/
def handle_emergency (_now : String) (args : Args) : Obj :=
  [("status", .str "success"),
   ("emergency_reason", dictGet args "emergency_reason" (.str "Unspecified emergency"))]

end EmergencyNode

namespace SharedHandlers

/-- `handle_emergency` (shared_handlers/handlers.py): like the emergency
node's handler but additionally stamps `datetime.now().isoformat()` into the
result, so its output depends on the ambient clock `now`, not only on `args`. -/
def handle_emergency (now : String) (args : Args) : Obj :=
  [("status", .str "success"),
   ("emergency_reason", dictGet args "emergency_reason" (.str "Unspecified emergency")),
   ("timestamp", .str now)]

end SharedHandlers

/-- `handle_emergency_transition` (emergency.py): record the reason (via
`result.get`, `None` when absent) and the clock reading under the `emergency`
topic key, then install the terminal node. -/
def handle_emergency_transition (now : String) (_args : Args) (result : Obj)
    (fm : FlowManager) : Except String FlowManager :=
  let fm := stateSet fm "emergency" (.obj
    [("reason", dictGet result "emergency_reason" .null), ("timestamp", .str now)])
  Except.ok (set_node fm "end_call"
    (create_end_call_node "Please stay on the line while I transfer you to our medical staff."))

/-! ## Specialty nodes: chest pain and respiratory -/

/-- Emergency indicator keywords of `assess_chest_pain` (chest_pain.py). -/
def chestPainEmergencyIndicators : List String :=
  ["severe", "crushing", "extremely painful", "unbearable", "difficulty breathing",
   "shortness of breath", "sweating", "nausea", "radiating to arm"]

/-- Emergency indicator keywords of `assess_respiratory` (respiratory.py). -/
def respiratoryEmergencyIndicators : List String :=
  ["severe difficulty", "can\x27t breathe", "unable to breathe", "blue lips",
   "chest pain", "dizzy", "confused"]

/-- The inner `any(indicator in symptom.lower() for symptom in symptoms for
indicator in indicators)` generator: symptoms are visited lazily in order and
`.lower()` raises `AttributeError` on a non-string element when it is reached
— elements after the first matching one are never touched. -/
def symptomsHit (indicators : List String) : List JValue → Except String Bool
  | [] => Except.ok false
  | v :: rest => do
    let s ← jLower v
    if indicators.any (fun indicator => strContains s indicator) then
      Except.ok true
    else
      symptomsHit indicators rest

/-- Python iteration `for symptom in v`, as the sequence of yielded values: a
list yields its items, a string yields its characters as one-character
strings, a dict yields its keys; booleans, numbers and `None` are not
iterable (`TypeError`). -/
def pyIter : JValue → Except String (List JValue)
  | .list xs => Except.ok xs
  | .str s => Except.ok (s.data.map (fun ch => .str (String.mk [ch])))
  | .obj fields => Except.ok (fields.map (fun p => JValue.str p.fst))
  | _ => Except.error "TypeError: not iterable"

/-- The whole emergency test shared by both assessors:
`any(i in text for i in indicators) or any(i in symptom.lower() ...)`, with
Python's `or` short-circuit: when the free-text field already matches, the
symptoms value is never iterated (so it may be of any type); otherwise it is
iterated per `pyIter` and scanned lazily per `symptomsHit`. `text` is the
already-lowercased free-text field. -/
def emergencyHit (indicators : List String) (text : String) (symptoms : JValue) :
    Except String Bool :=
  if indicators.any (fun indicator => strContains text indicator) then
    Except.ok true
  else do
    let items ← pyIter symptoms
    symptomsHit indicators items

/-- `assess_chest_pain` (chest_pain.py): lowercases the severity text, runs
emergency detection over it and the associated symptoms, and returns the
normalized result with empty defaults, the emergency flag, and the fixed
reason string (or `None`). -/
def assess_chest_pain (_now : String) (args : Args) : Except String Obj := do
  let severity ← jLower (dictGet args "severity" (.str ""))
  let associated_symptoms := dictGet args "associated_symptoms" (.list [])
  let is_emergency ← emergencyHit chestPainEmergencyIndicators severity associated_symptoms
  Except.ok
    [("status", .str "success"),
     ("pain_location", dictGet args "pain_location" (.str "")),
     ("pain_quality", dictGet args "pain_quality" (.str "")),
     ("radiation", dictGet args "radiation" (.str "")),
     ("associated_symptoms", associated_symptoms),
     ("severity", .str severity),
     ("aggravating_factors", dictGet args "aggravating_factors" (.list [])),
     ("relieving_factors", dictGet args "relieving_factors" (.list [])),
     ("requires_emergency_routing", .bool is_emergency),
     ("emergency_reason",
      if is_emergency then .str "Potential cardiac emergency detected" else .null)]

/-- `assess_respiratory` (respiratory.py): same shape over the
breathing-difficulty text and the respiratory indicator set. -/
def assess_respiratory (_now : String) (args : Args) : Except String Obj := do
  let breathing_difficulty ← jLower (dictGet args "breathing_difficulty" (.str ""))
  let associated_symptoms := dictGet args "associated_symptoms" (.list [])
  let is_emergency ←
    emergencyHit respiratoryEmergencyIndicators breathing_difficulty associated_symptoms
  Except.ok
    [("status", .str "success"),
     ("breathing_difficulty", .str breathing_difficulty),
     ("cough_type", dictGet args "cough_type" (.str "")),
     ("cough_duration", dictGet args "cough_duration" (.str "")),
     ("sputum_presence", dictGet args "sputum_presence" (.bool false)),
     ("sputum_description", dictGet args "sputum_description" (.str "")),
     ("associated_symptoms", associated_symptoms),
     ("requires_emergency", .bool is_emergency),
     ("emergency_reason",
      if is_emergency then .str "Severe respiratory distress detected" else .null)]

/-- `ChestPainNode.create_assessment_node` (chest_pain.py). -/
def chestPainAssessmentNode : NodeConfig :=
  { roleMessages := [⟨"system",
      "You are assessing chest pain symptoms. Be alert for signs of emergency."⟩]
    taskMessages := [⟨"system",
      "Carefully assess chest pain characteristics. Ask about:\n1. Location and radiation of pain\n2. Quality of pain (sharp, dull, pressure, etc.)\n3. Severity (1-10 scale)\n4. Associated symptoms\n5. What makes it better or worse"⟩]
    functions := [⟨"assess_chest_pain", "Assess chest pain symptoms", some "assess_chest_pain",
      ["pain_location", "pain_quality", "radiation", "associated_symptoms", "severity",
       "aggravating_factors", "relieving_factors"],
      ["pain_location", "pain_quality", "severity"],
      some "handle_chest_pain_assessment", none⟩]
    preActions := []
    postActions := [] }

/-- `RespiratoryNode.create_assessment_node` (respiratory.py). -/
def respiratoryAssessmentNode : NodeConfig :=
  { roleMessages := []
    taskMessages := [⟨"system",
      "Continue gathering information about their breathing symptoms naturally. Ask about:\n1. Difficulty breathing - when it occurs, severity\n2. Cough - type (dry/wet), duration\n3. Any mucus or phlegm\n4. Associated symptoms\nAsk these questions conversationally, one at a time."⟩]
    functions := [⟨"assess_respiratory", "Collect detailed respiratory information",
      some "assess_respiratory",
      ["breathing_difficulty", "cough_type", "cough_duration", "sputum_presence",
       "sputum_description", "associated_symptoms"],
      ["breathing_difficulty", "cough_type", "cough_duration"],
      some "handle_respiratory_assessment", none⟩]
    preActions := []
    postActions := [] }

/-- Python attribute lookup on a dict value. `TypedDict` classes produce plain
dicts at runtime, and a dict does not expose its keys as attributes, so
`result.pain_location` raises `AttributeError` unconditionally. -/
def dictAttr (_d : Obj) (attr : String) : Except String JValue :=
  Except.error ("AttributeError: \x27dict\x27 object has no attribute \x27" ++ attr ++ "\x27")

/-- `handle_chest_pain_assessment` (chest_pain.py): the source reads the
result's fields with attribute access (`result.pain_location`, ...,
`result.requires_emergency_routing`) although the result is a `TypedDict`,
i.e. a plain dict; the first access (evaluated while building the stored
assessment dict, before any state write) raises `AttributeError`, so the
callback never stores the assessment and never installs a next node. -/
def handle_chest_pain_assessment (_args : Args) (result : Obj) (fm : FlowManager) :
    Except String FlowManager := do
  let location ← dictAttr result "pain_location"
  let quality ← dictAttr result "pain_quality"
  let radiation ← dictAttr result "radiation"
  let associated_symptoms ← dictAttr result "associated_symptoms"
  let severity ← dictAttr result "severity"
  let aggravating ← dictAttr result "aggravating_factors"
  let relieving ← dictAttr result "relieving_factors"
  let fm := stateSet fm "chest_pain_assessment" (.obj
    [("location", location), ("quality", quality), ("radiation", radiation),
     ("associated_symptoms", associated_symptoms), ("severity", severity),
     ("aggravating_factors", aggravating), ("relieving_factors", relieving)])
  let requires ← dictAttr result "requires_emergency_routing"
  if jTruthy requires then do
    let reason ← dictAttr result "emergency_reason"
    Except.ok (set_node fm "emergency" (create_emergency_node reason))
  else
    Except.ok (set_node fm "medical_history" create_medical_history_node)

/-- `handle_respiratory_assessment` (respiratory.py): store the structured
assessment under the `respiratory_assessment` topic key (subscript access,
`KeyError` when a field is absent), then install `emergency` (carrying
`result["emergency_reason"]`) when `result["requires_emergency"]` is truthy,
else `medical_history`. -/
def handle_respiratory_assessment (_args : Args) (result : Obj) (fm : FlowManager) :
    Except String FlowManager := do
  let breathing ← dictItem result "breathing_difficulty"
  let coughType ← dictItem result "cough_type"
  let coughDuration ← dictItem result "cough_duration"
  let sputumPresence ← dictItem result "sputum_presence"
  let sputumDescription ← dictItem result "sputum_description"
  let associated ← dictItem result "associated_symptoms"
  let fm := stateSet fm "respiratory_assessment" (.obj
    [("breathing_difficulty", breathing), ("cough_type", coughType),
     ("cough_duration", coughDuration), ("sputum_presence", sputumPresence),
     ("sputum_description", sputumDescription), ("associated_symptoms", associated)])
  let requires ← dictItem result "requires_emergency"
  if jTruthy requires then do
    let reason ← dictItem result "emergency_reason"
    Except.ok (set_node fm "emergency" (create_emergency_node reason))
  else
    Except.ok (set_node fm "medical_history" create_medical_history_node)

/-! ## Specialty registry and specialty-flow setup -/

/-- One registry entry of `NodeRegistry._flows` (registry.py): the dict key is
the specialty class's `__name__`, and the class supplies its trigger phrases
and its assessment node. -/
structure RegEntry where
  name : String
  triggerPhrases : List String
  assessmentNode : NodeConfig

namespace NodeRegistry

/-- `NodeRegistry.register` (registry.py): `cls._flows[flow_class.__name__] =
flow_class` — plain dict assignment: an already-present identity is silently
overwritten in place (keeping its position in registration order), a new one
is appended; the call never fails. -/
def register (flows : List RegEntry) (e : RegEntry) : List RegEntry :=
  if flows.any (fun f => f.name == e.name) then
    flows.map (fun f => if f.name == e.name then e else f)
  else
    flows ++ [e]

/-- `NodeRegistry.get_node_for_complaint` (registry.py): lowercase the
complaint, then return the first registered entry (dict iteration order =
registration order) one of whose trigger phrases occurs verbatim as a
substring of the lowered complaint. -/
def get_node_for_complaint (flows : List RegEntry) (complaint : String) : Option RegEntry :=
  flows.find? (fun f =>
    f.triggerPhrases.any (fun trigger => strContains (pyLower complaint) trigger))

end NodeRegistry

/-- `SpecialtyNode.create_transition_node` (base.py): a short announcement
node whose single function unconditionally advances (`transition_to`) to the
specialty's assessment node. -/
def create_transition_node (e : RegEntry) (transition_message : String) : NodeConfig :=
  { roleMessages := []
    taskMessages := [⟨"system", "Say: \x27" ++ transition_message ++ "\x27"⟩]
    functions := [⟨"continue_to_" ++ pyLower e.name, "Continue to " ++ e.name ++ " assessment",
      none, [], [], none, some (pyLower e.name ++ "_assessment")⟩]
    preActions := []
    postActions := [] }

/-- `SpecialtyNode.setup` (base.py): the two-step install — first the
transition (intro) node, then the assessment node, both via `set_node`. -/
def SpecialtyNode.setup (fm : FlowManager) (e : RegEntry) (transition_message : String) :
    FlowManager :=
  let fm := set_node fm (pyLower e.name ++ "_intro") (create_transition_node e transition_message)
  set_node fm (pyLower e.name ++ "_assessment") e.assessmentNode

/-- `ChestPainNode` (chest_pain.py) as its `@register` decorator would
register it, were the module imported (see `registeredFlows`). -/
def ChestPainNode : RegEntry :=
  ⟨"ChestPainNode",
   ["chest pain", "chest pressure", "chest tightness", "heart pain", "angina"],
   chestPainAssessmentNode⟩

/-- `RespiratoryNode` (respiratory.py) as its `@register` decorator would
register it, were the module imported (see `registeredFlows`). -/
def RespiratoryNode : RegEntry :=
  ⟨"RespiratoryNode",
   ["breathing problem", "shortness of breath", "difficulty breathing", "cough",
    "respiratory", "breathing difficulty"],
   respiratoryAssessmentNode⟩

/-- The registry as the two `@register` class decorators would build it
(module order: chest pain, then respiratory). The shipped program never
reaches this configuration: no module imports chest_pain.py or
respiratory.py, and importing either would raise `ImportError` — they do
`from .registry import FlowRegistry` while registry.py defines only
`NodeRegistry` — so no decorator ever runs; this is the intended
configuration, kept for comparison. -/
def registeredFlows : List RegEntry :=
  NodeRegistry.register (NodeRegistry.register [] ChestPainNode) RespiratoryNode

/-- The registry contents the shipped program actually builds: since the
specialty modules are never imported (and cannot be imported, see
`registeredFlows`), `NodeRegistry._flows` stays empty. -/
def shippedFlows : List RegEntry := []

/-- Python `str(v)` as used by f-string interpolation: identity on strings,
`True`/`False`/`None` on scalars, and `repr`-style rendering of containers
(quote-escaping inside rendered strings is elided; no claim exercises it). -/
def pyStr : JValue → String
  | .str s => s
  | .bool b => cond b "True" "False"
  | .num n => toString n
  | .null => "None"
  | .list xs => "[" ++ String.intercalate ", " (xs.map pyReprElem) ++ "]"
  | .obj _ => "{...}"
where
  /-- `repr` of a non-container element inside a rendered list. -/
  pyReprElem : JValue → String
    | .str s => "\x27" ++ s ++ "\x27"
    | .bool b => cond b "True" "False"
    | .num n => toString n
    | .null => "None"
    | _ => "..."

/-- `handle_complaint_transition` (chief_complaint.py): record
`{complaint, duration}` under the `chief_complaint` topic key, query the
registry with the raw complaint text (its internal `.lower()` raises
`AttributeError` on a non-string complaint), and either run the matched
specialty's two-step `setup` with the echoing transition message or install
`medical_history` directly. (In Python the state write precedes a potential
registry exception; the model only reports the error in that case, and no
claim depends on post-exception state.) -/
def handle_complaint_transition (flows : List RegEntry) (_args : Args) (result : Obj)
    (fm : FlowManager) : Except String FlowManager := do
  let complaint ← dictItem result "complaint"
  let duration ← dictItem result "duration"
  let fm := stateSet fm "chief_complaint" (.obj
    [("complaint", complaint), ("duration", duration)])
  let complaintStr ←
    match complaint with
    | .str s => Except.ok s
    | _ => Except.error "AttributeError: lower"
  match NodeRegistry.get_node_for_complaint flows complaintStr with
  | some e =>
    let transition_message :=
      "I understand you\x27ve been experiencing " ++ complaintStr ++ " for " ++
      pyStr duration ++
      ". I\x27d like to ask a few more specific questions about this to help the doctor better prepare for your appointment."
    Except.ok (SpecialtyNode.setup fm e transition_message)
  | none =>
    Except.ok (set_node fm "medical_history" create_medical_history_node)

/-! ## The session state machine

The conversational phases and the transition edges, one edge per `set_node`
target appearing in a transition callback (plus the intro node's static
`transition_to`). Both specialties share the intro/assessment pair: their
callbacks install the same targets. -/

/-- The conversational phases a session can be in (one per installable node
kind). -/
inductive Phase where
  | entry
  | chief_complaint
  | specialty_intro
  | specialty_assessment
  | medical_history
  | emergency
  | wrap_up
  | end_call
  deriving DecidableEq

/-- The transition edges of the intake state machine, each justified by a
`set_node` call (or static `transition_to`) in the source. -/
inductive Step : Phase → Phase → Prop where
  /-- entry.py: consent given, install `chief_complaint`. -/
  | consent_yes : Step .entry .chief_complaint
  /-- entry.py: consent refused, install the terminal node directly. -/
  | consent_no : Step .entry .end_call
  /-- chief_complaint.py via base.py `setup`: registry match, install the
  specialty intro node. -/
  | complaint_specialty : Step .chief_complaint .specialty_intro
  /-- chief_complaint.py: no registry match, install `medical_history`. -/
  | complaint_general : Step .chief_complaint .medical_history
  /-- base.py: the intro node's `transition_to` the assessment node. -/
  | intro_assessment : Step .specialty_intro .specialty_assessment
  /-- chest_pain.py / respiratory.py: emergency flag set, install `emergency`. -/
  | assessment_emergency : Step .specialty_assessment .emergency
  /-- chest_pain.py / respiratory.py: no emergency, install `medical_history`. -/
  | assessment_general : Step .specialty_assessment .medical_history
  /-- medical_history.py: install `wrap_up` unconditionally. -/
  | history_wrap : Step .medical_history .wrap_up
  /-- wrap_up.py: install the terminal node unconditionally. -/
  | wrap_end : Step .wrap_up .end_call
  /-- emergency.py: install the terminal node after escalation. -/
  | emergency_end : Step .emergency .end_call

/-- A ranking of phases that every transition strictly increases (the graph's
acyclicity witness). -/
def Phase.rank : Phase → Nat
  | .entry => 0
  | .chief_complaint => 1
  | .specialty_intro => 2
  | .specialty_assessment => 3
  | .medical_history => 4
  | .emergency => 4
  | .wrap_up => 5
  | .end_call => 6

/-- Logical ranking for the spec's state count, in which the
intro/assessment pair is one logical step (the intro carries weight 0). -/
def Phase.lrank : Phase → Nat
  | .entry => 0
  | .chief_complaint => 1
  | .specialty_intro => 2
  | .specialty_assessment => 2
  | .medical_history => 3
  | .emergency => 3
  | .wrap_up => 4
  | .end_call => 5

/-- The weight of a phase in the spec's state count: the specialty intro
(the announcement half of the intro/assessment pair) counts zero. -/
def Phase.weight : Phase → Nat
  | .specialty_intro => 0
  | _ => 1

/-- The number of logical states along a path: each visited phase counts one,
except the specialty intro. -/
def logicalCount (l : List Phase) : Nat := (l.map Phase.weight).sum

/-! ## Claim C10: the consent handler -/

/-- C10: for every raw_args input, `verify_consent` returns status "success"
(it is total, hence never throws); `consent_given` equals the given value
when the `consent` field is a boolean, is true exactly when the field is a
string whose lowercase form is "true", and is false when the field is
missing or of any other type. -/
theorem c10_verify_consent (now : String) (args : Args) :
    (verify_consent now args).lookup "status" = some (.str "success") ∧
    (∀ b, args.lookup "consent" = some (.bool b) →
      (verify_consent now args).lookup "consent_given" = some (.bool b)) ∧
    (∀ s, args.lookup "consent" = some (.str s) →
      (verify_consent now args).lookup "consent_given" = some (.bool (pyLower s == "true"))) ∧
    (args.lookup "consent" = none →
      (verify_consent now args).lookup "consent_given" = some (.bool false)) ∧
    (∀ v, args.lookup "consent" = some v → (∀ b, v ≠ .bool b) → (∀ s, v ≠ .str s) →
      (verify_consent now args).lookup "consent_given" = some (.bool false)) := by
  refine ⟨rfl, ?_, ?_, ?_, ?_⟩
  · intro b h
    simp [verify_consent, dictGet, h, List.lookup]
  · intro s h
    simp [verify_consent, dictGet, h, List.lookup]
  · intro h
    simp [verify_consent, dictGet, h, List.lookup]
    decide
  · intro v h hb hs
    simp only [verify_consent, dictGet, h, Option.getD_some]
    cases v with
    | str s => exact absurd rfl (hs s)
    | bool b => exact absurd rfl (hb b)
    | num n => simp [List.lookup]
    | list xs => simp [List.lookup]
    | obj fields => simp [List.lookup]
    | null => simp [List.lookup]

/-- Witness for C10 at concrete inputs: a boolean consent, an affirmative
string consent, and a missing field. -/
theorem c10_verify_consent_witness :
    (verify_consent "clock" [("consent", .bool true)]).lookup "consent_given" =
      some (.bool true) ∧
    (verify_consent "clock" [("consent", .str "TRUE")]).lookup "consent_given" =
      some (.bool true) ∧
    (verify_consent "clock" []).lookup "consent_given" = some (.bool false) := by
  refine ⟨?_, ?_, ?_⟩
  · exact (c10_verify_consent "clock" [("consent", .bool true)]).2.1 true rfl
  · have h := (c10_verify_consent "clock" [("consent", .str "TRUE")]).2.2.1 "TRUE" rfl
    rwa [show (pyLower "TRUE" == "true") = true from rfl] at h
  · exact (c10_verify_consent "clock" []).2.2.2.1 rfl

/-! ## Claim C4: the consent transition -/

/-- C4: on a truthy `consent_given` the callback records the consent flag in
session state and installs `chief_complaint`; on refusal the very next (and
only) installed node is the terminal `end_call` node — session state is left
untouched, so a session whose state held at most the consent flag still holds
no other topic key, and the terminal node collects nothing (no functions) and
ends the conversation (post-action). -/
theorem c4_handle_consent_transition (args : Args) (result : Obj) (fm : FlowManager)
    (v : JValue) (h : result.lookup "consent_given" = some v) :
    (jTruthy v = true →
      handle_consent_transition args result fm =
        .ok ⟨dictSet fm.state "consent_given" (.bool true),
             fm.installedNodes ++ [("chief_complaint", create_chief_complaint_node)]⟩) ∧
    (jTruthy v = false →
      handle_consent_transition args result fm =
        .ok ⟨fm.state,
             fm.installedNodes ++ [("end_call", create_end_call_node consentDeclineMessage)]⟩ ∧
      (create_end_call_node consentDeclineMessage).functions = [] ∧
      (create_end_call_node consentDeclineMessage).postActions =
        [[("type", JValue.str "end_conversation")]]) := by
  constructor
  · intro htrue
    simp [handle_consent_transition, dictItem, h, htrue, set_node, stateSet,
      Bind.bind, Except.bind]
  · intro hfalse
    refine ⟨?_, rfl, rfl⟩
    simp [handle_consent_transition, dictItem, h, hfalse, set_node, Bind.bind, Except.bind]

/-- Witness for C4: both consent branches evaluated on the session-start
flow manager (empty state), with results produced by `verify_consent`. -/
theorem c4_handle_consent_transition_witness :
    handle_consent_transition [("consent", .bool true)]
      (verify_consent "clock" [("consent", .bool true)]) ⟨[], []⟩ =
      .ok ⟨[("consent_given", .bool true)],
           [("chief_complaint", create_chief_complaint_node)]⟩ ∧
    handle_consent_transition [("consent", .bool false)]
      (verify_consent "clock" [("consent", .bool false)]) ⟨[], []⟩ =
      .ok ⟨[], [("end_call", create_end_call_node consentDeclineMessage)]⟩ := by
  constructor
  · exact (c4_handle_consent_transition [("consent", .bool true)]
      (verify_consent "clock" [("consent", .bool true)]) ⟨[], []⟩ (.bool true) rfl).1 rfl
  · exact ((c4_handle_consent_transition [("consent", .bool false)]
      (verify_consent "clock" [("consent", .bool false)]) ⟨[], []⟩ (.bool false) rfl).2 rfl).1

/-! ## Claim C1: specialty assessment transition callbacks -/

/-- C1 (refuting the claim for chest pain, establishing it for respiratory):
the chest-pain transition callback raises `AttributeError` on every input —
the source reads the `TypedDict` result with attribute access — so it stores
nothing and installs no node (in particular a detected emergency is dropped
with an exception instead of entering the emergency state). The respiratory
callback behaves as claimed: it records the structured result under its own
`respiratory_assessment` topic key and installs `emergency` (whose
`alert_staff` pre-action carries the result's reason) when the emergency flag
is set, else `medical_history`. -/
theorem c1_specialty_assessment_transitions :
    (∀ (args : Args) (result : Obj) (fm : FlowManager),
      handle_chest_pain_assessment args result fm =
        .error "AttributeError: \x27dict\x27 object has no attribute \x27pain_location\x27") ∧
    (∃ r fmEm, assess_respiratory "clock"
        [("breathing_difficulty", .str "I can\x27t breathe")] = .ok r ∧
      handle_respiratory_assessment [] r ⟨[], []⟩ = .ok fmEm ∧
      fmEm.state.lookup "respiratory_assessment" =
        some (.obj [("breathing_difficulty", .str "i can\x27t breathe"),
                    ("cough_type", .str ""), ("cough_duration", .str ""),
                    ("sputum_presence", .bool false), ("sputum_description", .str ""),
                    ("associated_symptoms", .list [])]) ∧
      fmEm.installedNodes =
        [("emergency", create_emergency_node (.str "Severe respiratory distress detected"))] ∧
      (create_emergency_node (.str "Severe respiratory distress detected")).preActions =
        [[("type", .str "alert_staff"),
          ("reason", .str "Severe respiratory distress detected")]]) ∧
    (∃ r fmGen, assess_respiratory "clock"
        [("breathing_difficulty", .str "mild wheeze")] = .ok r ∧
      handle_respiratory_assessment [] r ⟨[], []⟩ = .ok fmGen ∧
      (fmGen.state.lookup "respiratory_assessment").isSome = true ∧
      fmGen.installedNodes = [("medical_history", create_medical_history_node)]) := by
  refine ⟨fun args result fm => rfl, ⟨_, _, rfl, rfl, rfl, rfl, rfl⟩,
    ⟨_, _, rfl, rfl, rfl, rfl⟩⟩

/-! ## Claim C2: emergency detection in the specialty handlers -/

/-- The chest-pain emergency predicate at the level of plain strings: some
indicator occurs in the lowered severity text or in some lowered symptom. -/
def chestFlag (sev : String) (syms : List String) : Bool :=
  chestPainEmergencyIndicators.any (fun i => strContains (pyLower sev) i) ||
  syms.any (fun s => chestPainEmergencyIndicators.any (fun i => strContains (pyLower s) i))

/-- The respiratory emergency predicate at the level of plain strings. -/
def respFlag (bd : String) (syms : List String) : Bool :=
  respiratoryEmergencyIndicators.any (fun i => strContains (pyLower bd) i) ||
  syms.any (fun s => respiratoryEmergencyIndicators.any (fun i => strContains (pyLower s) i))

lemma symptomsHit_strings (inds : List String) (syms : List String) :
    symptomsHit inds (syms.map .str) =
      .ok (syms.any (fun s => inds.any (fun i => strContains (pyLower s) i))) := by
  induction syms with
  | nil => rfl
  | cons s rest ih =>
    by_cases h : inds.any (fun i => strContains (pyLower s) i)
    · simp [symptomsHit, jLower, Bind.bind, Except.bind, h]
    · simp [symptomsHit, jLower, Bind.bind, Except.bind, h, ih]

lemma emergencyHit_strings (inds : List String) (text : String) (syms : List String) :
    emergencyHit inds text (.list (syms.map .str)) =
      .ok ((inds.any (fun i => strContains text i)) ||
           syms.any (fun s => inds.any (fun i => strContains (pyLower s) i))) := by
  by_cases h : inds.any (fun i => strContains text i) <;>
    simp [emergencyHit, h, pyIter, Bind.bind, Except.bind, symptomsHit_strings]

/-- Full evaluation of `assess_chest_pain` on inputs whose severity is a
string (or absent) and whose associated symptoms are a list of strings (or
absent). -/
lemma assess_chest_pain_eval (now : String) (args : Args) (sev : String) (syms : List String)
    (hsev : dictGet args "severity" (.str "") = .str sev)
    (hsyms : dictGet args "associated_symptoms" (.list []) = .list (syms.map .str)) :
    assess_chest_pain now args = .ok
      [("status", .str "success"),
       ("pain_location", dictGet args "pain_location" (.str "")),
       ("pain_quality", dictGet args "pain_quality" (.str "")),
       ("radiation", dictGet args "radiation" (.str "")),
       ("associated_symptoms", .list (syms.map .str)),
       ("severity", .str (pyLower sev)),
       ("aggravating_factors", dictGet args "aggravating_factors" (.list [])),
       ("relieving_factors", dictGet args "relieving_factors" (.list [])),
       ("requires_emergency_routing", .bool (chestFlag sev syms)),
       ("emergency_reason",
        if chestFlag sev syms then .str "Potential cardiac emergency detected"
        else .null)] := by
  simp [assess_chest_pain, hsev, hsyms, jLower, Bind.bind, Except.bind,
    emergencyHit_strings, chestFlag]

/-- Full evaluation of `assess_respiratory` on inputs whose
breathing-difficulty field is a string (or absent) and whose associated
symptoms are a list of strings (or absent). -/
lemma assess_respiratory_eval (now : String) (args : Args) (bd : String) (syms : List String)
    (hbd : dictGet args "breathing_difficulty" (.str "") = .str bd)
    (hsyms : dictGet args "associated_symptoms" (.list []) = .list (syms.map .str)) :
    assess_respiratory now args = .ok
      [("status", .str "success"),
       ("breathing_difficulty", .str (pyLower bd)),
       ("cough_type", dictGet args "cough_type" (.str "")),
       ("cough_duration", dictGet args "cough_duration" (.str "")),
       ("sputum_presence", dictGet args "sputum_presence" (.bool false)),
       ("sputum_description", dictGet args "sputum_description" (.str "")),
       ("associated_symptoms", .list (syms.map .str)),
       ("requires_emergency", .bool (respFlag bd syms)),
       ("emergency_reason",
        if respFlag bd syms then .str "Severe respiratory distress detected"
        else .null)] := by
  simp [assess_respiratory, hbd, hsyms, jLower, Bind.bind, Except.bind,
    emergencyHit_strings, respFlag]

/-- The string-valued items of an iteration sequence: these are exactly the
items `.lower()` succeeds on (a non-string item aborts the lazy scan with
`AttributeError` when it is reached). -/
def strItems (items : List JValue) : List String :=
  items.filterMap (fun v => match v with | .str s => some s | _ => none)

/-- The string items Python iteration of `v` yields: a list's string-valued
elements, a string's characters, a dict's keys; nothing for a non-iterable
value (where iteration raises and no result is returned). -/
def pyIterStrings (v : JValue) : List String :=
  match pyIter v with
  | .ok items => strItems items
  | .error _ => []

lemma strItems_map_str (l : List String) : strItems (l.map .str) = l := by
  induction l with
  | nil => rfl
  | cons s t ih => simpa [strItems, List.filterMap_cons] using ih

/-- Whenever the lazy symptom scan returns (rather than raising), its result
is the match verdict over the string-valued items: a matching string item is
reached before any non-string item, or there is no match and every item is a
string. -/
lemma symptomsHit_ok (inds : List String) :
    ∀ (items : List JValue) (b : Bool), symptomsHit inds items = .ok b →
      b = (strItems items).any (fun s => inds.any (fun i => strContains (pyLower s) i)) := by
  intro items
  induction items with
  | nil =>
    intro b h
    simp [symptomsHit] at h
    simp [strItems, ← h]
  | cons v rest ih =>
    intro b h
    cases v with
    | str s =>
      by_cases hs : inds.any (fun i => strContains (pyLower s) i)
      · have hb : true = b := by
          simpa [symptomsHit, jLower, Bind.bind, Except.bind, hs] using h
        simp [strItems, List.filterMap_cons, List.any_cons, hs, ← hb]
      · have h' : symptomsHit inds rest = .ok b := by
          simpa [symptomsHit, jLower, Bind.bind, Except.bind, hs] using h
        simp [strItems, List.filterMap_cons, List.any_cons, hs, ih b h']
    | bool b' => simp [symptomsHit, jLower, Bind.bind, Except.bind] at h
    | num n => simp [symptomsHit, jLower, Bind.bind, Except.bind] at h
    | list xs => simp [symptomsHit, jLower, Bind.bind, Except.bind] at h
    | obj fields => simp [symptomsHit, jLower, Bind.bind, Except.bind] at h
    | null => simp [symptomsHit, jLower, Bind.bind, Except.bind] at h

/-- Whenever the whole emergency test returns (rather than raising), its
verdict is: the free-text field matches, or some string item yielded by
iterating the symptoms value matches. -/
lemma emergencyHit_ok (inds : List String) (text : String) (symptoms : JValue) (b : Bool)
    (h : emergencyHit inds text symptoms = .ok b) :
    b = ((inds.any fun i => strContains text i) ||
      (pyIterStrings symptoms).any (fun s => inds.any fun i => strContains (pyLower s) i)) := by
  by_cases hfree : inds.any (fun i => strContains text i)
  · rw [emergencyHit, if_pos hfree] at h
    injection h with h'
    simp [hfree, ← h']
  · rw [emergencyHit, if_neg hfree] at h
    cases symptoms with
    | str s =>
      have h' : symptomsHit inds (s.data.map (fun ch => .str (String.mk [ch]))) = .ok b := by
        simpa [pyIter, Bind.bind, Except.bind] using h
      simp [hfree, pyIterStrings, pyIter, symptomsHit_ok inds _ b h']
    | list xs =>
      have h' : symptomsHit inds xs = .ok b := by
        simpa [pyIter, Bind.bind, Except.bind] using h
      simp [hfree, pyIterStrings, pyIter, symptomsHit_ok inds xs b h']
    | obj fields =>
      have h' : symptomsHit inds (fields.map (fun p => JValue.str p.fst)) = .ok b := by
        simpa [pyIter, Bind.bind, Except.bind] using h
      simp [hfree, pyIterStrings, pyIter, symptomsHit_ok inds _ b h']
    | bool b' => simp [pyIter, Bind.bind, Except.bind] at h
    | num n => simp [pyIter, Bind.bind, Except.bind] at h
    | null => simp [pyIter, Bind.bind, Except.bind] at h

/-- Evaluation of `assess_chest_pain` when its emergency test returns `b`. -/
lemma assess_chest_pain_ok (now : String) (args : Args) (sev : String) (b : Bool)
    (hsev : dictGet args "severity" (.str "") = .str sev)
    (heh : emergencyHit chestPainEmergencyIndicators (pyLower sev)
      (dictGet args "associated_symptoms" (.list [])) = .ok b) :
    assess_chest_pain now args = .ok
      [("status", .str "success"),
       ("pain_location", dictGet args "pain_location" (.str "")),
       ("pain_quality", dictGet args "pain_quality" (.str "")),
       ("radiation", dictGet args "radiation" (.str "")),
       ("associated_symptoms", dictGet args "associated_symptoms" (.list [])),
       ("severity", .str (pyLower sev)),
       ("aggravating_factors", dictGet args "aggravating_factors" (.list [])),
       ("relieving_factors", dictGet args "relieving_factors" (.list [])),
       ("requires_emergency_routing", .bool b),
       ("emergency_reason",
        if b then .str "Potential cardiac emergency detected" else .null)] := by
  simp [assess_chest_pain, hsev, jLower, Bind.bind, Except.bind, heh]

/-- `assess_chest_pain` propagates a raised emergency test. -/
lemma assess_chest_pain_err (now : String) (args : Args) (sev : String) (e : String)
    (hsev : dictGet args "severity" (.str "") = .str sev)
    (heh : emergencyHit chestPainEmergencyIndicators (pyLower sev)
      (dictGet args "associated_symptoms" (.list [])) = .error e) :
    assess_chest_pain now args = .error e := by
  simp [assess_chest_pain, hsev, jLower, Bind.bind, Except.bind, heh]

/-- Evaluation of `assess_respiratory` when its emergency test returns `b`. -/
lemma assess_respiratory_ok (now : String) (args : Args) (bd : String) (b : Bool)
    (hbd : dictGet args "breathing_difficulty" (.str "") = .str bd)
    (heh : emergencyHit respiratoryEmergencyIndicators (pyLower bd)
      (dictGet args "associated_symptoms" (.list [])) = .ok b) :
    assess_respiratory now args = .ok
      [("status", .str "success"),
       ("breathing_difficulty", .str (pyLower bd)),
       ("cough_type", dictGet args "cough_type" (.str "")),
       ("cough_duration", dictGet args "cough_duration" (.str "")),
       ("sputum_presence", dictGet args "sputum_presence" (.bool false)),
       ("sputum_description", dictGet args "sputum_description" (.str "")),
       ("associated_symptoms", dictGet args "associated_symptoms" (.list [])),
       ("requires_emergency", .bool b),
       ("emergency_reason",
        if b then .str "Severe respiratory distress detected" else .null)] := by
  simp [assess_respiratory, hbd, jLower, Bind.bind, Except.bind, heh]

/-- `assess_respiratory` propagates a raised emergency test. -/
lemma assess_respiratory_err (now : String) (args : Args) (bd : String) (e : String)
    (hbd : dictGet args "breathing_difficulty" (.str "") = .str bd)
    (heh : emergencyHit respiratoryEmergencyIndicators (pyLower bd)
      (dictGet args "associated_symptoms" (.list [])) = .error e) :
    assess_respiratory now args = .error e := by
  simp [assess_respiratory, hbd, jLower, Bind.bind, Except.bind, heh]

/-- C2: for each specialty handler, on every raw_args for which the handler
returns a result at all, the result's emergency flag is true iff some keyword
of the specialty's static indicator set occurs as a substring of the
lowercased free-text field or of some lowercased string item of the
associated-symptoms value — for the canonical list-of-strings value those
items are exactly the list's elements; for the degenerate values Python still
iterates, `pyIterStrings` yields what iteration visits (a string's
characters, a dict's keys, a mixed list's string elements, the non-string
ones aborting the scan with an exception unless a match was already found).
A set flag always comes with the specialty's fixed non-empty human-readable
reason string. When the free-text field is present but not a string, the
handler raises and returns no result, so the clauses cover every raw_args on
which a result is returned. -/
theorem c2_emergency_flag_iff :
    (∀ (now : String) (args : Args) (sev : String) (r : Obj),
      dictGet args "severity" (.str "") = .str sev →
      assess_chest_pain now args = .ok r →
      (r.lookup "requires_emergency_routing" = some (.bool true) ↔
        ∃ ind ∈ chestPainEmergencyIndicators,
          (strContains (pyLower sev) ind = true ∨
           ∃ sym ∈ pyIterStrings (dictGet args "associated_symptoms" (.list [])),
             strContains (pyLower sym) ind = true)) ∧
      (r.lookup "requires_emergency_routing" = some (.bool true) →
        r.lookup "emergency_reason" =
          some (.str "Potential cardiac emergency detected") ∧
        "Potential cardiac emergency detected" ≠ "")) ∧
    (∀ (now : String) (args : Args),
      (∀ s, dictGet args "severity" (.str "") ≠ .str s) →
      ∀ r, assess_chest_pain now args ≠ .ok r) ∧
    (∀ (now : String) (args : Args) (bd : String) (r : Obj),
      dictGet args "breathing_difficulty" (.str "") = .str bd →
      assess_respiratory now args = .ok r →
      (r.lookup "requires_emergency" = some (.bool true) ↔
        ∃ ind ∈ respiratoryEmergencyIndicators,
          (strContains (pyLower bd) ind = true ∨
           ∃ sym ∈ pyIterStrings (dictGet args "associated_symptoms" (.list [])),
             strContains (pyLower sym) ind = true)) ∧
      (r.lookup "requires_emergency" = some (.bool true) →
        r.lookup "emergency_reason" =
          some (.str "Severe respiratory distress detected") ∧
        "Severe respiratory distress detected" ≠ "")) ∧
    (∀ (now : String) (args : Args),
      (∀ s, dictGet args "breathing_difficulty" (.str "") ≠ .str s) →
      ∀ r, assess_respiratory now args ≠ .ok r) := by
  refine ⟨?_, ?_, ?_, ?_⟩
  · intro now args sev r hsev hok
    cases heh : emergencyHit chestPainEmergencyIndicators (pyLower sev)
        (dictGet args "associated_symptoms" (.list [])) with
    | error e =>
      rw [assess_chest_pain_err now args sev e hsev heh] at hok
      exact Except.noConfusion hok
    | ok b =>
      rw [assess_chest_pain_ok now args sev b hsev heh] at hok
      injection hok with h'
      subst h'
      have hb := emergencyHit_ok chestPainEmergencyIndicators (pyLower sev)
        (dictGet args "associated_symptoms" (.list [])) b heh
      have hl : List.lookup "requires_emergency_routing"
          [("status", JValue.str "success"),
           ("pain_location", dictGet args "pain_location" (.str "")),
           ("pain_quality", dictGet args "pain_quality" (.str "")),
           ("radiation", dictGet args "radiation" (.str "")),
           ("associated_symptoms", dictGet args "associated_symptoms" (.list [])),
           ("severity", .str (pyLower sev)),
           ("aggravating_factors", dictGet args "aggravating_factors" (.list [])),
           ("relieving_factors", dictGet args "relieving_factors" (.list [])),
           ("requires_emergency_routing", .bool b),
           ("emergency_reason",
            if b then .str "Potential cardiac emergency detected" else .null)] =
          some (.bool b) := by
        simp [List.lookup]
      constructor
      · rw [hl]
        rw [show (some (JValue.bool b) = some (JValue.bool true)) ↔ (b = true) from by simp]
        rw [hb, Bool.or_eq_true, List.any_eq_true, List.any_eq_true]
        constructor
        · rintro (⟨i, hi, hc⟩ | ⟨s, hs, hc⟩)
          · exact ⟨i, hi, Or.inl hc⟩
          · rcases List.any_eq_true.mp hc with ⟨i, hi, hci⟩
            exact ⟨i, hi, Or.inr ⟨s, hs, hci⟩⟩
        · rintro ⟨i, hi, hc | ⟨s, hs, hc⟩⟩
          · exact Or.inl ⟨i, hi, hc⟩
          · exact Or.inr ⟨s, hs, List.any_eq_true.mpr ⟨i, hi, hc⟩⟩
      · intro hflag
        rw [hl] at hflag
        have hbtrue : b = true := by simpa using hflag
        subst hbtrue
        exact ⟨by simp [List.lookup], by decide⟩
  · intro now args hnot r hok
    cases hv : dictGet args "severity" (.str "") with
    | str s => exact hnot s hv
    | bool b => simp [assess_chest_pain, hv, jLower, Bind.bind, Except.bind] at hok
    | num n => simp [assess_chest_pain, hv, jLower, Bind.bind, Except.bind] at hok
    | list xs => simp [assess_chest_pain, hv, jLower, Bind.bind, Except.bind] at hok
    | obj fields => simp [assess_chest_pain, hv, jLower, Bind.bind, Except.bind] at hok
    | null => simp [assess_chest_pain, hv, jLower, Bind.bind, Except.bind] at hok
  · intro now args bd r hbd hok
    cases heh : emergencyHit respiratoryEmergencyIndicators (pyLower bd)
        (dictGet args "associated_symptoms" (.list [])) with
    | error e =>
      rw [assess_respiratory_err now args bd e hbd heh] at hok
      exact Except.noConfusion hok
    | ok b =>
      rw [assess_respiratory_ok now args bd b hbd heh] at hok
      injection hok with h'
      subst h'
      have hb := emergencyHit_ok respiratoryEmergencyIndicators (pyLower bd)
        (dictGet args "associated_symptoms" (.list [])) b heh
      have hl : List.lookup "requires_emergency"
          [("status", JValue.str "success"),
           ("breathing_difficulty", .str (pyLower bd)),
           ("cough_type", dictGet args "cough_type" (.str "")),
           ("cough_duration", dictGet args "cough_duration" (.str "")),
           ("sputum_presence", dictGet args "sputum_presence" (.bool false)),
           ("sputum_description", dictGet args "sputum_description" (.str "")),
           ("associated_symptoms", dictGet args "associated_symptoms" (.list [])),
           ("requires_emergency", .bool b),
           ("emergency_reason",
            if b then .str "Severe respiratory distress detected" else .null)] =
          some (.bool b) := by
        simp [List.lookup]
      constructor
      · rw [hl]
        rw [show (some (JValue.bool b) = some (JValue.bool true)) ↔ (b = true) from by simp]
        rw [hb, Bool.or_eq_true, List.any_eq_true, List.any_eq_true]
        constructor
        · rintro (⟨i, hi, hc⟩ | ⟨s, hs, hc⟩)
          · exact ⟨i, hi, Or.inl hc⟩
          · rcases List.any_eq_true.mp hc with ⟨i, hi, hci⟩
            exact ⟨i, hi, Or.inr ⟨s, hs, hci⟩⟩
        · rintro ⟨i, hi, hc | ⟨s, hs, hc⟩⟩
          · exact Or.inl ⟨i, hi, hc⟩
          · exact Or.inr ⟨s, hs, List.any_eq_true.mpr ⟨i, hi, hc⟩⟩
      · intro hflag
        rw [hl] at hflag
        have hbtrue : b = true := by simpa using hflag
        subst hbtrue
        exact ⟨by simp [List.lookup], by decide⟩
  · intro now args hnot r hok
    cases hv : dictGet args "breathing_difficulty" (.str "") with
    | str s => exact hnot s hv
    | bool b => simp [assess_respiratory, hv, jLower, Bind.bind, Except.bind] at hok
    | num n => simp [assess_respiratory, hv, jLower, Bind.bind, Except.bind] at hok
    | list xs => simp [assess_respiratory, hv, jLower, Bind.bind, Except.bind] at hok
    | obj fields => simp [assess_respiratory, hv, jLower, Bind.bind, Except.bind] at hok
    | null => simp [assess_respiratory, hv, jLower, Bind.bind, Except.bind] at hok

/-- Witness for C2 at concrete inputs covering the claim's corners: the
spec's own example ("severe crushing pressure" severity) sets the chest-pain
flag with the fixed reason; a benign respiratory input leaves the flag unset;
a mixed symptoms list whose first element matches sets the flag (the later
non-string element is never reached); and a string-valued symptoms field is
iterated per character, so the whole-string indicator "sweating" does not set
the flag. -/
theorem c2_emergency_flag_iff_witness :
    (∃ r, assess_chest_pain "clock" [("severity", .str "severe crushing pressure")] = .ok r ∧
      r.lookup "requires_emergency_routing" = some (.bool true) ∧
      r.lookup "emergency_reason" = some (.str "Potential cardiac emergency detected")) ∧
    (∃ r, assess_respiratory "clock"
        [("breathing_difficulty", .str "a little congested")] = .ok r ∧
      r.lookup "requires_emergency" ≠ some (.bool true)) ∧
    (∃ r, assess_chest_pain "clock"
        [("severity", .str "mild"),
         ("associated_symptoms", .list [.str "crushing pain", .num 42])] = .ok r ∧
      r.lookup "requires_emergency_routing" = some (.bool true)) ∧
    (∃ r, assess_chest_pain "clock"
        [("severity", .str "mild"), ("associated_symptoms", .str "sweating")] = .ok r ∧
      r.lookup "requires_emergency_routing" ≠ some (.bool true)) := by
  refine ⟨?_, ?_, ?_, ?_⟩
  · obtain ⟨hiff, hreason⟩ :=
      c2_emergency_flag_iff.1 "clock" [("severity", .str "severe crushing pressure")]
        "severe crushing pressure" _ rfl rfl
    have hflag := hiff.mpr ⟨"severe", by decide, Or.inl (by decide)⟩
    exact ⟨_, rfl, hflag, (hreason hflag).1⟩
  · obtain ⟨hiff, _⟩ :=
      c2_emergency_flag_iff.2.2.1 "clock"
        [("breathing_difficulty", .str "a little congested")] "a little congested" _ rfl rfl
    refine ⟨_, rfl, fun h => ?_⟩
    have hx := hiff.mp h
    revert hx
    decide
  · obtain ⟨hiff, _⟩ :=
      c2_emergency_flag_iff.1 "clock"
        [("severity", .str "mild"),
         ("associated_symptoms", .list [.str "crushing pain", .num 42])] "mild" _ rfl rfl
    exact ⟨_, rfl, hiff.mpr ⟨"crushing", by decide,
      Or.inr ⟨"crushing pain", by decide, by decide⟩⟩⟩
  · obtain ⟨hiff, _⟩ :=
      c2_emergency_flag_iff.1 "clock"
        [("severity", .str "mild"), ("associated_symptoms", .str "sweating")] "mild" _ rfl rfl
    refine ⟨_, rfl, fun h => ?_⟩
    have hx := hiff.mp h
    revert hx
    decide

/-! ## Claim C3: registry matching -/

/-- The match test actually performed by `get_node_for_complaint`: some
trigger phrase occurs verbatim in the lowercased complaint (the phrase itself
is not case-folded). -/
def matchesLoweredComplaint (complaint : String) (e : RegEntry) : Bool :=
  e.triggerPhrases.any (fun trigger => strContains (pyLower complaint) trigger)

/-- The claim's reading of the match test, written from the spec's words for
comparison: a case-insensitive substring match of the complaint against each
trigger phrase, i.e. both sides case-folded. -/
def matchesCaseInsensitive (complaint : String) (e : RegEntry) : Bool :=
  e.triggerPhrases.any (fun trigger => strContains (pyLower complaint) (pyLower trigger))

/-- A hypothetical registry entry whose trigger phrase is not lowercase
(nothing stops a registrant from writing one). -/
def cexEntry : RegEntry := ⟨"CoughNode", ["Cough"], respiratoryAssessmentNode⟩

/-- A hypothetical second entry triggered by the same word as
`RespiratoryNode`, to pin down the first-registered-wins tie-break. -/
def coughTwinNode : RegEntry := ⟨"CoughTwinNode", ["cough"], respiratoryAssessmentNode⟩

/-- C3 counterexample: with an entry whose trigger phrase is "Cough", the
complaint "COUGH" matches case-insensitively (the spec's reading) yet
`get_node_for_complaint` returns nothing, because only the complaint is
case-folded before the verbatim substring test. -/
theorem c3_counterexample :
    NodeRegistry.get_node_for_complaint [cexEntry] "COUGH" = none ∧
    matchesCaseInsensitive "COUGH" cexEntry = true := ⟨rfl, rfl⟩

lemma find?_first {α : Type _} (p : α → Bool) :
    ∀ (l : List α) (x : α), l.find? p = some x →
      ∃ i : Fin l.length, l.get i = x ∧ p x = true ∧
        ∀ j : Fin l.length, (j : Nat) < (i : Nat) → p (l.get j) = false := by
  intro l
  induction l with
  | nil => intro x h; simp [List.find?] at h
  | cons a t ih =>
    intro x h
    by_cases ha : p a = true
    · rw [List.find?_cons_of_pos _ ha] at h
      cases h
      exact ⟨⟨0, Nat.succ_pos _⟩, rfl, ha, fun j hj => absurd hj (Nat.not_lt_zero _)⟩
    · rw [List.find?_cons_of_neg _ ha] at h
      rcases ih x h with ⟨i, hget, hx, hprev⟩
      refine ⟨⟨i + 1, Nat.succ_lt_succ i.isLt⟩, hget, hx, ?_⟩
      intro j hj
      match j with
      | ⟨0, _⟩ => exact Bool.not_eq_true _ ▸ ha
      | ⟨k + 1, hk⟩ =>
        exact hprev ⟨k, Nat.lt_of_succ_lt_succ hk⟩ (Nat.lt_of_succ_lt_succ hj)

/-- C3 (amended): `get_node_for_complaint` lowercases the complaint and
returns the first registered entry (registration order, not specificity) one
of whose trigger phrases occurs verbatim as a substring of the lowered
complaint, and nothing when no phrase occurs; since every phrase actually
registered is lowercase, on the shipped registry this coincides with the
fully case-insensitive match the claim describes. -/
theorem c3_registry_first_match :
    (∀ (flows : List RegEntry) (complaint : String) (e : RegEntry),
      NodeRegistry.get_node_for_complaint flows complaint = some e →
      ∃ i : Fin flows.length, flows.get i = e ∧
        matchesLoweredComplaint complaint e = true ∧
        ∀ j : Fin flows.length, (j : Nat) < (i : Nat) →
          matchesLoweredComplaint complaint (flows.get j) = false) ∧
    (∀ (flows : List RegEntry) (complaint : String),
      NodeRegistry.get_node_for_complaint flows complaint = none ↔
        ∀ e ∈ flows, matchesLoweredComplaint complaint e = false) ∧
    (∀ complaint : String,
      NodeRegistry.get_node_for_complaint registeredFlows complaint =
        registeredFlows.find? (matchesCaseInsensitive complaint)) := by
  refine ⟨?_, ?_, ?_⟩
  · intro flows complaint e h
    exact find?_first (matchesLoweredComplaint complaint) flows e h
  · intro flows complaint
    rw [show NodeRegistry.get_node_for_complaint flows complaint =
      flows.find? (matchesLoweredComplaint complaint) from rfl]
    rw [List.find?_eq_none]
    constructor
    · intro h e he
      exact Bool.not_eq_true _ ▸ h e he
    · intro h e he
      rw [h e he]
      exact Bool.false_ne_true
  · intro complaint
    rfl

/-- Witness for C3 (amended): with a twin entry registered after
`RespiratoryNode` and also triggered by "cough", an ambiguous complaint
resolves to the first-registered entry; and a complaint matching no phrase
yields no entry. -/
theorem c3_registry_first_match_witness :
    (∃ i : Fin ([RespiratoryNode, coughTwinNode].length),
      [RespiratoryNode, coughTwinNode].get i = RespiratoryNode ∧
      matchesLoweredComplaint "I caught a nasty cough" RespiratoryNode = true ∧
      ∀ j : Fin ([RespiratoryNode, coughTwinNode].length), (j : Nat) < (i : Nat) →
        matchesLoweredComplaint "I caught a nasty cough"
          ([RespiratoryNode, coughTwinNode].get j) = false) ∧
    (∀ e ∈ [RespiratoryNode, coughTwinNode],
      matchesLoweredComplaint "headache" e = false) := by
  constructor
  · exact c3_registry_first_match.1 [RespiratoryNode, coughTwinNode]
      "I caught a nasty cough" RespiratoryNode rfl
  · exact (c3_registry_first_match.2.1 [RespiratoryNode, coughTwinNode] "headache").mp rfl

/-! ## Claim C6: duplicate registration -/

/-- A second specialty carrying the same identity (`__name__`) as
`ChestPainNode` but different trigger phrases. -/
def duplicateChestEntry : RegEntry :=
  ⟨"ChestPainNode", ["sternum ache"], chestPainAssessmentNode⟩

/-- C6 counterexample: registering an entry whose identity is already present
does not fail — it silently replaces the existing entry (the registry ends up
holding the newcomer, whose phrase list differs from the original's). -/
theorem c6_counterexample :
    NodeRegistry.register [ChestPainNode] duplicateChestEntry = [duplicateChestEntry] ∧
    duplicateChestEntry.triggerPhrases ≠ ChestPainNode.triggerPhrases := by
  refine ⟨rfl, ?_⟩
  decide

/-- C6 (amended): `register` is total and never rejects a duplicate:
when the identity is already present the dict assignment silently replaces
that entry in place (same position, same registry size); when it is new, the
entry is appended. -/
theorem c6_register_overwrites (flows : List RegEntry) (e : RegEntry) :
    (flows.any (fun f => f.name == e.name) = true →
      NodeRegistry.register flows e =
        flows.map (fun f => if f.name == e.name then e else f) ∧
      (NodeRegistry.register flows e).length = flows.length) ∧
    (flows.any (fun f => f.name == e.name) = false →
      NodeRegistry.register flows e = flows ++ [e]) := by
  constructor
  · intro h
    refine ⟨by simp [NodeRegistry.register, h], ?_⟩
    simp [NodeRegistry.register, h]
  · intro h
    simp [NodeRegistry.register, h]

/-- Witness for C6 (amended): the duplicate chest-pain registration replaces
in place, and a fresh registration appends. -/
theorem c6_register_overwrites_witness :
    NodeRegistry.register [ChestPainNode] duplicateChestEntry = [duplicateChestEntry] ∧
    (NodeRegistry.register [ChestPainNode] duplicateChestEntry).length = 1 ∧
    NodeRegistry.register [ChestPainNode] RespiratoryNode =
      [ChestPainNode, RespiratoryNode] := by
  obtain ⟨h1, h2⟩ := (c6_register_overwrites [ChestPainNode] duplicateChestEntry).1 rfl
  refine ⟨?_, h2, (c6_register_overwrites [ChestPainNode] RespiratoryNode).2 rfl⟩
  rw [h1]
  rfl

/-! ## Claim C7: handler purity -/

/-- C7 counterexample: the shared emergency handler
(shared_handlers/handlers.py) stamps `datetime.now().isoformat()` into its
result, so two invocations with identical raw_args made at different clock
instants return different results — it is not a pure function of its
raw_args. -/
theorem c7_counterexample :
    SharedHandlers.handle_emergency "2025-01-01T00:00:00" [] ≠
      SharedHandlers.handle_emergency "2025-01-01T00:00:01" [] := by
  intro h
  simp [SharedHandlers.handle_emergency, dictGet] at h

/-- C7 (amended): every handler actually bound into a node configuration —
consent, chief complaint, medical history, both specialty assessors, and the
emergency node's own (module-local) emergency handler — is a pure function of
its raw_args: its output is independent of the ambient clock, and (being a
function) identical raw_args give identical results. The shared emergency
handler alone depends on the clock, and only through its `timestamp` field:
its `emergency_reason` field is clock-independent. -/
theorem c7_handlers_pure (t₁ t₂ : String) (args : Args) :
    verify_consent t₁ args = verify_consent t₂ args ∧
    collect_chief_complaint t₁ args = collect_chief_complaint t₂ args ∧
    collect_medical_history t₁ args = collect_medical_history t₂ args ∧
    assess_chest_pain t₁ args = assess_chest_pain t₂ args ∧
    assess_respiratory t₁ args = assess_respiratory t₂ args ∧
    EmergencyNode.handle_emergency t₁ args = EmergencyNode.handle_emergency t₂ args ∧
    (SharedHandlers.handle_emergency t₁ args).lookup "emergency_reason" =
      (SharedHandlers.handle_emergency t₂ args).lookup "emergency_reason" :=
  ⟨rfl, rfl, rfl, rfl, rfl, rfl, rfl⟩

/-! ## Claim C8: tolerance of missing fields -/

/-- C8 counterexample: the emergency handler's missing `emergency_reason` is
not coerced to an empty string, empty list, or false — it is coerced to the
placeholder string "Unspecified emergency". -/
theorem c8_counterexample :
    (EmergencyNode.handle_emergency "clock" []).lookup "emergency_reason" =
      some (.str "Unspecified emergency") ∧
    JValue.str "Unspecified emergency" ≠ .str "" ∧
    JValue.str "Unspecified emergency" ≠ .list [] ∧
    JValue.str "Unspecified emergency" ≠ .bool false := by
  refine ⟨rfl, ?_, ?_, ?_⟩
  · intro h
    injection h with h'
    exact absurd h' (by decide)
  · intro h
    exact JValue.noConfusion h
  · intro h
    exact JValue.noConfusion h

/-- C8 (amended): every node handler tolerates well-formed-but-incomplete
raw_args without throwing, and coerces each missing field to its default —
empty string, empty list, or false — except the emergency handler's reason
field, whose default is the placeholder string "Unspecified emergency". (The
two assessors are total on inputs whose supplied free-text field is a string
and whose supplied symptom list is a list of strings; the other handlers are
total outright.) -/
theorem c8_missing_field_defaults (now : String) (args : Args) :
    (args.lookup "consent" = none →
      (verify_consent now args).lookup "consent_given" = some (.bool false)) ∧
    (args.lookup "complaint" = none →
      (collect_chief_complaint now args).lookup "complaint" = some (.str "")) ∧
    (args.lookup "duration" = none →
      (collect_chief_complaint now args).lookup "duration" = some (.str "")) ∧
    (args.lookup "conditions" = none →
      (collect_medical_history now args).lookup "conditions" = some (.list [])) ∧
    (args.lookup "medications" = none →
      (collect_medical_history now args).lookup "medications" = some (.list [])) ∧
    (args.lookup "allergies" = none →
      (collect_medical_history now args).lookup "allergies" = some (.list [])) ∧
    (args.lookup "surgeries" = none →
      (collect_medical_history now args).lookup "surgeries" = some (.list [])) ∧
    (args.lookup "emergency_reason" = none →
      (EmergencyNode.handle_emergency now args).lookup "emergency_reason" =
        some (.str "Unspecified emergency")) ∧
    (∀ sev syms, dictGet args "severity" (.str "") = .str sev →
      dictGet args "associated_symptoms" (.list []) = .list (List.map JValue.str syms) →
      ∃ r, assess_chest_pain now args = .ok r ∧
        (args.lookup "severity" = none → r.lookup "severity" = some (.str "")) ∧
        (args.lookup "associated_symptoms" = none →
          r.lookup "associated_symptoms" = some (.list [])) ∧
        (args.lookup "pain_location" = none → r.lookup "pain_location" = some (.str "")) ∧
        (args.lookup "pain_quality" = none → r.lookup "pain_quality" = some (.str "")) ∧
        (args.lookup "radiation" = none → r.lookup "radiation" = some (.str "")) ∧
        (args.lookup "aggravating_factors" = none →
          r.lookup "aggravating_factors" = some (.list [])) ∧
        (args.lookup "relieving_factors" = none →
          r.lookup "relieving_factors" = some (.list []))) ∧
    (∀ bd syms, dictGet args "breathing_difficulty" (.str "") = .str bd →
      dictGet args "associated_symptoms" (.list []) = .list (List.map JValue.str syms) →
      ∃ r, assess_respiratory now args = .ok r ∧
        (args.lookup "breathing_difficulty" = none →
          r.lookup "breathing_difficulty" = some (.str "")) ∧
        (args.lookup "cough_type" = none → r.lookup "cough_type" = some (.str "")) ∧
        (args.lookup "cough_duration" = none →
          r.lookup "cough_duration" = some (.str "")) ∧
        (args.lookup "sputum_presence" = none →
          r.lookup "sputum_presence" = some (.bool false)) ∧
        (args.lookup "sputum_description" = none →
          r.lookup "sputum_description" = some (.str "")) ∧
        (args.lookup "associated_symptoms" = none →
          r.lookup "associated_symptoms" = some (.list []))) := by
  refine ⟨?_, ?_, ?_, ?_, ?_, ?_, ?_, ?_, ?_, ?_⟩
  · intro h
    simp [verify_consent, dictGet, h, List.lookup]
    decide
  · intro h
    simp [collect_chief_complaint, dictGet, h, List.lookup]
  · intro h
    simp [collect_chief_complaint, dictGet, h, List.lookup]
  · intro h
    simp [collect_medical_history, dictGet, h, List.lookup]
  · intro h
    simp [collect_medical_history, dictGet, h, List.lookup]
  · intro h
    simp [collect_medical_history, dictGet, h, List.lookup]
  · intro h
    simp [collect_medical_history, dictGet, h, List.lookup]
  · intro h
    simp [EmergencyNode.handle_emergency, dictGet, h, List.lookup]
  · intro sev syms hsev hsyms
    refine ⟨_, assess_chest_pain_eval now args sev syms hsev hsyms, ?_, ?_, ?_, ?_, ?_, ?_, ?_⟩
    · intro h
      rw [dictGet, h] at hsev
      have hsev' : sev = "" := by
        have := hsev.symm
        injection this
      simp [List.lookup, hsev', pyLower]
    · intro h
      rw [dictGet, h] at hsyms
      have hsyms' : syms = [] := by
        cases syms with
        | nil => rfl
        | cons a t => injection hsyms.symm with h'; cases h'
      simp [List.lookup, hsyms']
    · intro h
      simp [List.lookup, dictGet, h]
    · intro h
      simp [List.lookup, dictGet, h]
    · intro h
      simp [List.lookup, dictGet, h]
    · intro h
      simp [List.lookup, dictGet, h]
    · intro h
      simp [List.lookup, dictGet, h]
  · intro bd syms hbd hsyms
    refine ⟨_, assess_respiratory_eval now args bd syms hbd hsyms, ?_, ?_, ?_, ?_, ?_, ?_⟩
    · intro h
      rw [dictGet, h] at hbd
      have hbd' : bd = "" := by
        have := hbd.symm
        injection this
      simp [List.lookup, hbd', pyLower]
    · intro h
      simp [List.lookup, dictGet, h]
    · intro h
      simp [List.lookup, dictGet, h]
    · intro h
      simp [List.lookup, dictGet, h]
    · intro h
      simp [List.lookup, dictGet, h]
    · intro h
      rw [dictGet, h] at hsyms
      have hsyms' : syms = [] := by
        cases syms with
        | nil => rfl
        | cons a t => injection hsyms.symm with h'; cases h'
      simp [List.lookup, hsyms']

/-- Witness for C8 (amended): every field missing (empty raw_args); selected
defaults of each handler observed, and both assessors return successfully. -/
theorem c8_missing_field_defaults_witness :
    (verify_consent "clock" []).lookup "consent_given" = some (.bool false) ∧
    (collect_chief_complaint "clock" []).lookup "complaint" = some (.str "") ∧
    (collect_medical_history "clock" []).lookup "medications" = some (.list []) ∧
    (EmergencyNode.handle_emergency "clock" []).lookup "emergency_reason" =
      some (.str "Unspecified emergency") ∧
    (∃ r, assess_chest_pain "clock" [] = .ok r ∧
      r.lookup "severity" = some (.str "")) ∧
    (∃ r, assess_respiratory "clock" [] = .ok r ∧
      r.lookup "sputum_presence" = some (.bool false)) := by
  obtain ⟨h1, h2, h3, h4, h5, h6, h7, h8, h9, h10⟩ := c8_missing_field_defaults "clock" []
  obtain ⟨r, hr, hsev, _⟩ := h9 "" [] rfl rfl
  obtain ⟨r2, hr2, _, _, _, hsp, _⟩ := h10 "" [] rfl rfl
  exact ⟨h1 rfl, h2 rfl, h5 rfl, h8 rfl, ⟨r, hr, hsev rfl⟩, ⟨r2, hr2, hsp rfl⟩⟩

/-! ## Claim C9: the chest-pain end-to-end scenario -/

/-- The transition message produced for complaint "I have chest pain" with
duration "2 days". -/
def chestScenarioMessage : String :=
  "I understand you\x27ve been experiencing I have chest pain for 2 days. I\x27d like to ask a few more specific questions about this to help the doctor better prepare for your appointment."

/-- C9 (refuting the claim on the shipped program, establishing it for the
intended configuration): in the shipped program the registry is empty
(`shippedFlows` — the specialty modules are never imported and their
`FlowRegistry` import would fail), so the scenario's complaint "I have chest
pain" matches nothing and `medical_history` is installed instead of the
chest-pain transition/assessment pair. Had the two decorators run
(`registeredFlows`), the claimed scenario holds in full: the registry matches
the chest-pain specialty, the complaint is recorded, the intro node's
utterance echoes "chest pain" and "2 days", and the chest-pain assessment
node is installed next (the intro node's only function unconditionally
advances to it). -/
theorem c9_chest_pain_scenario :
    (NodeRegistry.get_node_for_complaint shippedFlows "I have chest pain" = none ∧
     ∃ fm', handle_complaint_transition shippedFlows []
        (collect_chief_complaint "clock"
          [("complaint", .str "I have chest pain"), ("duration", .str "2 days")])
        ⟨[], []⟩ = .ok fm' ∧
      fm'.state = [("chief_complaint", .obj
        [("complaint", .str "I have chest pain"), ("duration", .str "2 days")])] ∧
      fm'.installedNodes = [("medical_history", create_medical_history_node)]) ∧
    (∃ fm', handle_complaint_transition registeredFlows []
        (collect_chief_complaint "clock"
          [("complaint", .str "I have chest pain"), ("duration", .str "2 days")])
        ⟨[], []⟩ = .ok fm' ∧
      NodeRegistry.get_node_for_complaint registeredFlows "I have chest pain" =
        some ChestPainNode ∧
      fm'.state = [("chief_complaint", .obj
        [("complaint", .str "I have chest pain"), ("duration", .str "2 days")])] ∧
      fm'.installedNodes =
        [("chestpainnode_intro", create_transition_node ChestPainNode chestScenarioMessage),
         ("chestpainnode_assessment", chestPainAssessmentNode)] ∧
      strContains chestScenarioMessage "chest pain" = true ∧
      strContains chestScenarioMessage "2 days" = true ∧
      (create_transition_node ChestPainNode chestScenarioMessage).taskMessages =
        [⟨"system", "Say: \x27" ++ chestScenarioMessage ++ "\x27"⟩] ∧
      (create_transition_node ChestPainNode chestScenarioMessage).functions =
        [⟨"continue_to_chestpainnode", "Continue to ChestPainNode assessment", none, [], [],
          none, some "chestpainnode_assessment"⟩]) :=
  ⟨⟨rfl, _, rfl, rfl, rfl⟩, _, rfl, rfl, rfl, rfl, rfl, rfl, rfl, rfl⟩

/-! ## Claim C5: termination, acyclicity and path length -/

lemma step_rank_lt {s t : Phase} (h : Step s t) : s.rank < t.rank := by
  cases h <;> decide

lemma step_lrank_le {s t : Phase} (h : Step s t) : s.lrank + s.weight ≤ t.lrank := by
  cases h <;> decide

lemma chain_rank_pairwise (a : Phase) (l : List Phase) (h : List.Chain Step a l) :
    List.Pairwise (fun x y => x.rank < y.rank) (a :: l) := by
  induction l generalizing a with
  | nil => simp
  | cons b t ih =>
    rw [List.chain_cons] at h
    have hp := ih b h.2
    rw [List.pairwise_cons]
    refine ⟨?_, hp⟩
    intro y hy
    rcases List.mem_cons.mp hy with rfl | hyt
    · exact step_rank_lt h.1
    · exact Nat.lt_trans (step_rank_lt h.1) ((List.pairwise_cons.mp hp).1 y hyt)

/-- C5: the transition graph strictly increases the phase rank (hence no
phase is revisited on any session path and every chain of transitions visits
pairwise-distinct phases); the terminal phase is reachable from every phase;
every non-terminal phase has a successor and the terminal phase has none (so
every maximal finite path ends at `end_call`); every transition chain visits
at most 7 phases; and a chain from `entry` visits at most 6 logical states,
counting the specialty intro/assessment pair once (the consent-decline
shortcut being the 2-state special case). -/
theorem c5_session_paths :
    (∀ s t : Phase, Step s t → s.rank < t.rank) ∧
    (∀ (a : Phase) (l : List Phase), List.Chain Step a l → (a :: l).Nodup) ∧
    (∀ s : Phase, Relation.ReflTransGen Step s .end_call) ∧
    (∀ s : Phase, s ≠ .end_call → ∃ t, Step s t) ∧
    (¬ ∃ t, Step .end_call t) ∧
    (∀ (a : Phase) (l : List Phase), List.Chain Step a l → (a :: l).length ≤ 7) ∧
    (∀ l : List Phase, List.Chain Step .entry l → logicalCount (.entry :: l) ≤ 6) := by
  have hlen : ∀ (a : Phase) (l : List Phase), List.Chain Step a l →
      (a :: l).length + a.rank ≤ 7 := by
    intro a l h
    induction l generalizing a with
    | nil =>
      have : a.rank ≤ 6 := by cases a <;> decide
      simp only [List.length_cons, List.length_nil]
      omega
    | cons b t ih =>
      rw [List.chain_cons] at h
      have hb := ih b h.2
      have hr := step_rank_lt h.1
      simp only [List.length_cons] at *
      omega
  have hlog : ∀ (a : Phase) (l : List Phase), List.Chain Step a l →
      logicalCount (a :: l) + a.lrank ≤ 6 := by
    intro a l h
    induction l generalizing a with
    | nil =>
      have : a.weight + a.lrank ≤ 6 := by cases a <;> decide
      simp only [logicalCount, List.map_cons, List.map_nil, List.sum_cons, List.sum_nil]
      omega
    | cons b t ih =>
      rw [List.chain_cons] at h
      have hb := ih b h.2
      have hr := step_lrank_le h.1
      simp only [logicalCount, List.map_cons, List.sum_cons] at *
      omega
  refine ⟨fun s t h => step_rank_lt h, ?_, ?_, ?_, ?_, ?_, ?_⟩
  · intro a l h
    exact (chain_rank_pairwise a l h).imp
      (fun hxy heq => absurd (heq ▸ hxy) (lt_irrefl _))
  · intro s
    cases s with
    | entry => exact .head .consent_no .refl
    | chief_complaint =>
      exact .head .complaint_general (.head .history_wrap (.head .wrap_end .refl))
    | specialty_intro =>
      exact .head .intro_assessment (.head .assessment_emergency (.head .emergency_end .refl))
    | specialty_assessment =>
      exact .head .assessment_emergency (.head .emergency_end .refl)
    | medical_history => exact .head .history_wrap (.head .wrap_end .refl)
    | emergency => exact .head .emergency_end .refl
    | wrap_up => exact .head .wrap_end .refl
    | end_call => exact .refl
  · intro s hs
    cases s with
    | entry => exact ⟨_, .consent_yes⟩
    | chief_complaint => exact ⟨_, .complaint_specialty⟩
    | specialty_intro => exact ⟨_, .intro_assessment⟩
    | specialty_assessment => exact ⟨_, .assessment_general⟩
    | medical_history => exact ⟨_, .history_wrap⟩
    | emergency => exact ⟨_, .emergency_end⟩
    | wrap_up => exact ⟨_, .wrap_end⟩
    | end_call => exact absurd rfl hs
  · rintro ⟨t, h⟩
    cases h
  · intro a l h
    have := hlen a l h
    omega
  · intro l h
    have := hlog .entry l h
    simpa using this

/-- The longest session path: the full specialty flow without escalation. -/
def longestSessionPath : List Phase :=
  [.chief_complaint, .specialty_intro, .specialty_assessment, .medical_history,
   .wrap_up, .end_call]

/-- Witness for C5 at the longest concrete session path. -/
theorem c5_session_paths_witness :
    (Phase.entry :: longestSessionPath).Nodup ∧
    (Phase.entry :: longestSessionPath).length ≤ 7 ∧
    logicalCount (Phase.entry :: longestSessionPath) ≤ 6 ∧
    Phase.rank .entry < Phase.rank .chief_complaint := by
  have hchain : List.Chain Step .entry longestSessionPath :=
    List.Chain.cons Step.consent_yes (List.Chain.cons Step.complaint_specialty
      (List.Chain.cons Step.intro_assessment (List.Chain.cons Step.assessment_general
        (List.Chain.cons Step.history_wrap (List.Chain.cons Step.wrap_end List.Chain.nil)))))
  exact ⟨c5_session_paths.2.1 _ _ hchain,
    c5_session_paths.2.2.2.2.2.1 _ _ hchain,
    c5_session_paths.2.2.2.2.2.2 _ hchain,
    c5_session_paths.1 _ _ Step.consent_yes⟩

end PatientIntake
